import Mathlib

/-!
Shallow embedding of src/src/training/nn_trainer.py (lipizzaner-gan):
the NeuralNetworkTrainer methods log_results, save_images and
save_checkpoint, together with the checkpoint value they serialize.

Modelling conventions:
* Python dicts that are dumped to YAML are modelled by the inductive Yval
  (string, int and bool leaves, lists, dicts as association lists).
* Numeric attributes that the code only copies verbatim (id, fitness,
  learning_rate, iteration, grid coordinates) are modelled as Int; the
  code never computes with them, it only moves them into the checkpoint.
* torch.save of a state_dict to a .pkl file is modelled as a FileWrite
  record holding the path and the weights blob (a List Int stands for the
  serialized tensor data).
* Writing the YAML checkpoint is the Option part of the result of
  save_checkpoint: none when the write is never reached because
  generators[0].iteration raises IndexError on an empty list.
* os.path.join dir name is modelled as dir ++ "/" ++ name.
* The training flag of each generator network (module.training, toggled
  by net.eval() and net.train()) is modelled as a List Bool aligned with
  population_gen.individuals.
-/

namespace NNTrainer

/-- A YAML-serializable value, as built by save_checkpoint before
yaml.dump. The weights constructor never occurs in a checkpoint; it is
the contents of a torch.save file and exists so that file contents and
checkpoint contents live in one value type. -/
inductive Yval where
  | s : String → Yval
  | n : Int → Yval
  | b : Bool → Yval
  | list : List Yval → Yval
  | dict : List (String × Yval) → Yval

/-- Key lookup in a dict value (Python d[k] / YAML mapping access). -/
def Yval.find (v : Yval) (k : String) : Option Yval :=
  match v with
  | .dict entries => List.lookup k entries
  | _ => none

/-- One individual of a population: the attributes of it that
nn_trainer.py reads (id, is_local, fitness, source, learning_rate,
iteration, and the state_dict of genome.net). -/
structure Individual where
  id : Int
  is_local : Bool
  fitness : Int
  source : String
  learning_rate : Int
  iteration : Int
  genome_weights : List Int
deriving DecidableEq

/-- A file written with torch.save: its path and the saved state_dict. -/
structure FileWrite where
  path : String
  weights : List Int
deriving DecidableEq

/-- os.path.join with a single component. -/
def pathJoin (dir name : String) : String := dir ++ "/" ++ name

def GENERATOR_PREFIX : String := "generator-"

def DISCRIMINATOR_PREFIX : String := "discriminator-"

/-- The per-individual dict built in the loop of
get_individuals_information (lines 113-119): keys id, is_local, fitness,
source, copied from the attributes of the individual. -/
def indiv_dict (individual : Individual) : Yval :=
  .dict [("id", .n individual.id),
         ("is_local", .b individual.is_local),
         ("fitness", .n individual.fitness),
         ("source", .s individual.source)]

/-- The loop body of get_individuals_information (lines 111-125): walks
the individuals, appends indiv_dict for each to the individuals list,
and for each local individual writes prefix-cellnumber-localid.pkl with
the state_dict of its genome.net, incrementing local_id only on local
individuals. Returns (individuals list, files written, in order). -/
def individuals_loop (output_dir pfx : String) (cell_number : Int) :
    Nat → List Individual → List Yval × List FileWrite
  | _, [] => ([], [])
  | local_id, individual :: rest =>
    if individual.is_local then
      let filename := pfx ++ toString cell_number ++ "-" ++ toString local_id ++ ".pkl"
      let r := individuals_loop output_dir pfx cell_number (local_id + 1) rest
      (indiv_dict individual :: r.1,
       { path := pathJoin output_dir filename,
         weights := individual.genome_weights } :: r.2)
    else
      let r := individuals_loop output_dir pfx cell_number local_id rest
      (indiv_dict individual :: r.1, r.2)

/-- get_individuals_information (lines 106-127): the empty dict for an
empty population; otherwise a dict with learning_rate (the formatted
learning rate of the first individual) and the individuals list. The
second component collects the torch.save file writes the call performs. -/
def get_individuals_information (output_dir pfx : String) (cell_number : Int)
    (individuals : List Individual) : Yval × List FileWrite :=
  match individuals with
  | [] => (.dict [], [])
  | i0 :: _ =>
    let r := individuals_loop output_dir pfx cell_number 0 individuals
    (.dict [("learning_rate", .s (toString i0.learning_rate)),
            ("individuals", .list r.1)], r.2)

/-- save_checkpoint (lines 104-142). The result is the list of .pkl
files written by the two get_individuals_information calls (these happen
first, lines 131-132), and then, when generators is non-empty, the
checkpoint dict together with the path of the YAML file it is dumped to.
When generators is empty, line 134 (generators[0].iteration) raises
IndexError before the YAML file is opened, so the second component is
none. The time field is the formatted current time, passed in as now. -/
def save_checkpoint (output_dir now : String)
    (generators discriminators : List Individual)
    (cell_number : Int) (grid_position : Int × Int) (grid_size : Int) :
    List FileWrite × Option (Yval × String) :=
  let gen := get_individuals_information output_dir GENERATOR_PREFIX cell_number generators
  let dis := get_individuals_information output_dir DISCRIMINATOR_PREFIX cell_number discriminators
  let files := gen.2 ++ dis.2
  match generators with
  | [] => (files, none)
  | g0 :: _ =>
    let checkpoint : Yval := .dict
      [("time", .s now),
       ("generators", gen.1),
       ("discriminators", dis.1),
       ("id", .n cell_number),
       ("iteration", .n g0.iteration),
       ("position", .dict [("x", .n grid_position.1), ("y", .n grid_position.2)]),
       ("grid_size", .n grid_size)]
    (files, some (checkpoint,
      pathJoin output_dir ("checkpoint-" ++ toString cell_number ++ ".yml")))

/-! Concrete individuals used in counterexamples and witnesses. -/

/-- A non-local individual with learning rate 7 and fitness 5. -/
def indiv_a : Individual := ⟨1, false, 5, "a:1", 7, 0, []⟩

/-- A non-local individual with learning rate 9 and fitness 6. -/
def indiv_b : Individual := ⟨2, false, 6, "a:2", 9, 0, []⟩

/-- A local individual whose genome.net has state_dict [9, 9]. -/
def indiv_loc : Individual := ⟨3, true, 4, "b:2", 2, 1, [9, 9]⟩

/-- A non-local individual whose genome.net has state_dict [42]. -/
def indiv_nl : Individual := ⟨1, false, 5, "a:1", 3, 7, [42]⟩

/-! The configuration read from the ConfigurationContainer, and the
log_results / save_images methods (lines 38-102). -/

/-- The settings and output directory that log_results and save_images
read from self.cc. sample_count is none when the dataloader settings
have no sample_count key (the Python default False); some 0 models a
present but falsy value. -/
structure Settings where
  sample_count : Option Nat
  image_format : String
  dataset_name : String
  print_multiple_generators : Bool
  print_discriminator : Bool
  output_dir : String

/-- Line 50: batch_size = sample_count if sample_count else
min(batch_size, 128). An absent key or a falsy (zero) sample_count
falls back to min(batch_size, 128). -/
def effective_batch_size (sample_count : Option Nat) (batch_size : Nat) : Nat :=
  match sample_count with
  | some n => if n != 0 then n else min batch_size 128
  | none => min batch_size 128

/-- gen.eval() followed (after running the generator) by gen.train() on
the generator at index i: its training flag is set to false, then back
to true. -/
def eval_then_train (flags : List Bool) (i : Nat) : List Bool :=
  (flags.set i false).set i true

/-- The loop of lines 75-79: generators 0 .. k-1, in order, are each
switched to eval, run on the noise batch, and switched to train. -/
def run_generators (flags : List Bool) : Nat → List Bool
  | 0 => flags
  | k + 1 => eval_then_train (run_generators flags k) k

/-- The observable effect of a completed save_images call: whether the
real images were saved, how many fake images were generated and saved,
and the training flags of the generator networks afterwards. -/
structure SaveImagesEffect where
  saved_real : Bool
  fake_count : Nat
  flags_after : List Bool
deriving DecidableEq

/-- save_images (lines 61-102). dataset_has_save models
hasattr(loader.dataset, 'save_images'); n_gen is the size of
population_gen.individuals and flags their training flags; dis_nonempty
is whether population_dis.individuals is non-empty; has_path_real is
whether a path_real argument was passed (it defaults to None). The
result is none when an individuals[0] access raises IndexError: the
single-generator branches read population_gen.individuals[0], and with
print_discriminator set, line 87 reads population_dis.individuals[0].
noise(batch_size, _) yields batch_size latent vectors, so each
generator run produces batch_size images; the network_traffic branch
(lines 69-71) only reshapes the noise and changes no count. With
print_multiple_generators, min(n_gen, 5) generators each contribute a
batch, and the whole list is saved to path_fake. Real images are saved
only at iteration 0. -/
def save_images (s : Settings) (dataset_has_save : Bool) (n_gen : Nat)
    (flags : List Bool) (dis_nonempty : Bool) (batch_size iteration : Nat)
    (has_path_real : Bool) : Option SaveImagesEffect :=
  if dataset_has_save then
    let saved_real := iteration == 0 && has_path_real
    if s.print_multiple_generators then
      if s.print_discriminator && !dis_nonempty then none
      else some ⟨saved_real, min n_gen 5 * batch_size,
                 run_generators flags (min n_gen 5)⟩
    else
      if n_gen == 0 then none
      else if s.print_discriminator && !dis_nonempty then none
      else some ⟨saved_real, batch_size, eval_then_train flags 0⟩
  else
    if n_gen == 0 then none
    else some ⟨iteration == 0 && has_path_real, batch_size, eval_then_train flags 0⟩

/-- The content of the log line of lines 43-46: the 1-based iteration
number shown, and the fitness of the first generator and of the first
discriminator (extra kwargs are appended verbatim and not modelled). -/
structure LogRecord where
  iteration_shown : Nat
  gen_fitness : Int
  dis_fitness : Int
deriving DecidableEq

/-- What a completed log_results call produces: the log record, the
save_images effect, and the returned pair (path_real, path_fake). -/
structure LogResultsOut where
  record : LogRecord
  effect : SaveImagesEffect
  path_real : String
  path_fake : String
deriving DecidableEq

/-- log_results (lines 38-59): logs the record, computes the effective
batch size and the two image paths, calls save_images, and returns
(path_real, path_fake). none models the IndexError of lines 44-45 when
either population is empty, or a failing save_images call. -/
def log_results (s : Settings) (dataset_has_save : Bool)
    (pop_gen pop_dis : List Individual) (flags : List Bool)
    (batch_size iteration : Nat) : Option LogResultsOut :=
  match pop_gen, pop_dis with
  | g0 :: _, d0 :: _ =>
    let record : LogRecord := ⟨iteration + 1, g0.fitness, d0.fitness⟩
    let batch := effective_batch_size s.sample_count batch_size
    let path_real := pathJoin s.output_dir ("real_images." ++ s.image_format)
    let path_fake := pathJoin s.output_dir
      ("fake_images-" ++ toString (iteration + 1) ++ "." ++ s.image_format)
    match save_images s dataset_has_save pop_gen.length flags (!pop_dis.isEmpty)
        batch iteration true with
    | some e => some ⟨record, e, path_real, path_fake⟩
    | none => none
  | _, _ => none

/-- A configuration with print_multiple_generators enabled, png images,
no sample_count, output directory out. -/
def cfgMulti : Settings := ⟨none, "png", "mnist", true, false, "out"⟩

/-- A configuration with all optional logging flags off. -/
def cfgPlain : Settings := ⟨none, "png", "mnist", false, false, "out"⟩

/-! Helper lemmas about the checkpoint serialization. -/

/-- The individuals list built by the loop is exactly the input
population mapped through indiv_dict, whatever the starting local_id. -/
theorem individuals_loop_fst (output_dir pfx : String) (cell_number : Int)
    (local_id : Nat) (l : List Individual) :
    (individuals_loop output_dir pfx cell_number local_id l).1 = l.map indiv_dict := by
  induction l generalizing local_id with
  | nil => rfl
  | cons a t ih => cases hl : a.is_local <;> simp [individuals_loop, hl, ih]

/-- Every local individual of the population gets a file write carrying
its weights, with a path of the shape prefix-cellnumber-localid.pkl. -/
theorem individuals_loop_local_weights (output_dir pfx : String) (cell_number : Int)
    (local_id : Nat) (l : List Individual) (individual : Individual)
    (hmem : individual ∈ l) (hloc : individual.is_local = true) :
    ∃ fw ∈ (individuals_loop output_dir pfx cell_number local_id l).2,
      fw.weights = individual.genome_weights
      ∧ ∃ j : Nat, fw.path
          = pathJoin output_dir (pfx ++ toString cell_number ++ "-" ++ toString j ++ ".pkl") := by
  induction l generalizing local_id with
  | nil => cases hmem
  | cons a t ih =>
    cases hmem with
    | head =>
      refine ⟨⟨pathJoin output_dir
          (pfx ++ toString cell_number ++ "-" ++ toString local_id ++ ".pkl"),
          individual.genome_weights⟩, ?_, rfl, local_id, rfl⟩
      simp [individuals_loop, hloc]
    | tail _ hm =>
      cases hl : a.is_local with
      | true =>
        obtain ⟨fw, hfw, hw⟩ := ih (local_id + 1) hm
        exact ⟨fw, by simp [individuals_loop, hl]; exact Or.inr hfw, hw⟩
      | false =>
        obtain ⟨fw, hfw, hw⟩ := ih local_id hm
        exact ⟨fw, by simp [individuals_loop, hl]; exact hfw, hw⟩

/-- The file writes of get_individuals_information are those of the loop
started at local_id 0. -/
theorem gii_snd (output_dir pfx : String) (cell_number : Int) (l : List Individual) :
    (get_individuals_information output_dir pfx cell_number l).2
      = (individuals_loop output_dir pfx cell_number 0 l).2 := by
  cases l <;> rfl

/-- The .pkl files written by save_checkpoint are those of the two
get_individuals_information calls, generators first, whether or not the
YAML write is reached afterwards. -/
theorem save_checkpoint_files (output_dir now : String)
    (generators discriminators : List Individual)
    (cell_number : Int) (gp : Int × Int) (gs : Int) :
    (save_checkpoint output_dir now generators discriminators cell_number gp gs).1
      = (get_individuals_information output_dir GENERATOR_PREFIX cell_number generators).2
        ++ (get_individuals_information output_dir DISCRIMINATOR_PREFIX cell_number discriminators).2 := by
  cases generators <;> rfl

/-- Explicit form of save_checkpoint on non-empty populations. -/
theorem save_checkpoint_cons (output_dir now : String) (g0 d0 : Individual)
    (gt dt : List Individual) (cell_number : Int) (gp : Int × Int) (gs : Int) :
    save_checkpoint output_dir now (g0 :: gt) (d0 :: dt) cell_number gp gs
      = ((individuals_loop output_dir GENERATOR_PREFIX cell_number 0 (g0 :: gt)).2
          ++ (individuals_loop output_dir DISCRIMINATOR_PREFIX cell_number 0 (d0 :: dt)).2,
         some (.dict
          [("time", .s now),
           ("generators", .dict [("learning_rate", .s (toString g0.learning_rate)),
              ("individuals", .list ((g0 :: gt).map indiv_dict))]),
           ("discriminators", .dict [("learning_rate", .s (toString d0.learning_rate)),
              ("individuals", .list ((d0 :: dt).map indiv_dict))]),
           ("id", .n cell_number),
           ("iteration", .n g0.iteration),
           ("position", .dict [("x", .n gp.1), ("y", .n gp.2)]),
           ("grid_size", .n gs)],
          pathJoin output_dir ("checkpoint-" ++ toString cell_number ++ ".yml"))) := by
  simp [save_checkpoint, get_individuals_information, individuals_loop_fst]

/-! Claim theorems about save_checkpoint. -/

/-- C1: for non-empty generator and discriminator lists, the checkpoint
written by save_checkpoint holds, under generators and discriminators,
an individuals list with exactly one entry per input individual in input
order, each entry recording the id, is_local flag, fitness and source of
that individual. -/
theorem save_checkpoint_individuals_entries (output_dir now : String)
    (g0 d0 : Individual) (gt dt : List Individual)
    (cell_number : Int) (grid_position : Int × Int) (grid_size : Int) :
    ∃ ck path,
      (save_checkpoint output_dir now (g0 :: gt) (d0 :: dt)
          cell_number grid_position grid_size).2 = some (ck, path)
      ∧ (∃ gi, ck.find "generators" = some gi
          ∧ gi.find "individuals" = some (.list ((g0 :: gt).map indiv_dict)))
      ∧ (∃ di, ck.find "discriminators" = some di
          ∧ di.find "individuals" = some (.list ((d0 :: dt).map indiv_dict)))
      ∧ ∀ individual : Individual,
          (indiv_dict individual).find "id" = some (.n individual.id)
          ∧ (indiv_dict individual).find "is_local" = some (.b individual.is_local)
          ∧ (indiv_dict individual).find "fitness" = some (.n individual.fitness)
          ∧ (indiv_dict individual).find "source" = some (.s individual.source) := by
  rw [save_checkpoint_cons]
  exact ⟨_, _, rfl, ⟨_, rfl, rfl⟩, ⟨_, rfl, rfl⟩,
    fun individual => ⟨rfl, rfl, rfl, rfl⟩⟩

/-- C3: for a non-empty generators list the iteration field of the
written checkpoint is the iteration attribute of the first generator. -/
theorem save_checkpoint_iteration_first_generator (output_dir now : String)
    (g0 : Individual) (gt discriminators : List Individual)
    (cell_number : Int) (grid_position : Int × Int) (grid_size : Int) :
    ∃ ck path,
      (save_checkpoint output_dir now (g0 :: gt) discriminators
          cell_number grid_position grid_size).2 = some (ck, path)
      ∧ ck.find "iteration" = some (.n g0.iteration) :=
  ⟨_, _, rfl, rfl⟩

/-- C5 counterexample: a call of save_checkpoint with an empty
generators list (cell_number 3, grid_position (1, 2), grid_size 4)
raises before reaching the YAML write, so no checkpoint file is written
for that call. -/
theorem save_checkpoint_empty_generators_nothing_written :
    (save_checkpoint "out" "t" [] [] 3 (1, 2) 4).2 = none := rfl

/-- C5 amended: for every save_checkpoint call with a non-empty
generators list, the checkpoint is written to checkpoint-c.yml in the
output directory and records id = c, position x and y, and grid_size. -/
theorem save_checkpoint_yaml_path_and_cell_fields (output_dir now : String)
    (g0 : Individual) (gt discriminators : List Individual)
    (cell_number : Int) (grid_position : Int × Int) (grid_size : Int) :
    ∃ ck,
      (save_checkpoint output_dir now (g0 :: gt) discriminators
          cell_number grid_position grid_size).2
        = some (ck, pathJoin output_dir ("checkpoint-" ++ toString cell_number ++ ".yml"))
      ∧ ck.find "id" = some (.n cell_number)
      ∧ ck.find "position"
          = some (.dict [("x", .n grid_position.1), ("y", .n grid_position.2)])
      ∧ ck.find "grid_size" = some (.n grid_size) :=
  ⟨_, rfl, rfl, rfl, rfl⟩

/-- C7: each individual entry recorded in the checkpoint is indiv_dict
of the corresponding input individual, and indiv_dict copies the source
and is_local attributes unchanged into the entry. -/
theorem checkpoint_source_and_is_local_copied (output_dir now : String)
    (g0 d0 : Individual) (gt dt : List Individual)
    (cell_number : Int) (grid_position : Int × Int) (grid_size : Int) :
    ∃ ck path,
      (save_checkpoint output_dir now (g0 :: gt) (d0 :: dt)
          cell_number grid_position grid_size).2 = some (ck, path)
      ∧ (∃ gi, ck.find "generators" = some gi
          ∧ gi.find "individuals" = some (.list ((g0 :: gt).map indiv_dict)))
      ∧ (∃ di, ck.find "discriminators" = some di
          ∧ di.find "individuals" = some (.list ((d0 :: dt).map indiv_dict)))
      ∧ ∀ individual : Individual,
          (indiv_dict individual).find "source" = some (.s individual.source)
          ∧ (indiv_dict individual).find "is_local" = some (.b individual.is_local) := by
  rw [save_checkpoint_cons]
  exact ⟨_, _, rfl, ⟨_, rfl, rfl⟩, ⟨_, rfl, rfl⟩,
    fun individual => ⟨rfl, rfl⟩⟩

/-- C2 counterexample: a call whose populations consist of one non-local
individual with state_dict [42] writes no weight file at all, and the
written checkpoint value, shown in full, holds no weights: only ids,
flags, fitnesses, sources, learning rates and cell data. -/
theorem save_checkpoint_nonlocal_weights_not_saved :
    save_checkpoint "out" "t" [indiv_nl] [indiv_nl] 0 (0, 0) 1
      = ([], some (.dict [("time", .s "t"),
          ("generators", .dict [("learning_rate", .s "3"),
            ("individuals", .list [.dict [("id", .n 1), ("is_local", .b false),
              ("fitness", .n 5), ("source", .s "a:1")]])]),
          ("discriminators", .dict [("learning_rate", .s "3"),
            ("individuals", .list [.dict [("id", .n 1), ("is_local", .b false),
              ("fitness", .n 5), ("source", .s "a:1")]])]),
          ("id", .n 0),
          ("iteration", .n 7),
          ("position", .dict [("x", .n 0), ("y", .n 0)]),
          ("grid_size", .n 1)], "out/checkpoint-0.yml")) := rfl

/-- C2 amended: save_checkpoint saves the network weights of every LOCAL
individual of the two populations, each to its own .pkl file next to the
YAML checkpoint; weights of non-local individuals are not saved. -/
theorem save_checkpoint_saves_local_weights (output_dir now : String)
    (generators discriminators : List Individual)
    (cell_number : Int) (grid_position : Int × Int) (grid_size : Int)
    (individual : Individual) (hloc : individual.is_local = true)
    (hmem : individual ∈ generators ∨ individual ∈ discriminators) :
    ∃ fw ∈ (save_checkpoint output_dir now generators discriminators
        cell_number grid_position grid_size).1,
      fw.weights = individual.genome_weights
      ∧ ∃ pfx j, (pfx = GENERATOR_PREFIX ∨ pfx = DISCRIMINATOR_PREFIX)
          ∧ fw.path = pathJoin output_dir
              (pfx ++ toString cell_number ++ "-" ++ toString (j : Nat) ++ ".pkl") := by
  rw [save_checkpoint_files, gii_snd, gii_snd]
  cases hmem with
  | inl hm =>
    obtain ⟨fw, hfw, hw, j, hp⟩ :=
      individuals_loop_local_weights output_dir GENERATOR_PREFIX cell_number 0
        generators individual hm hloc
    exact ⟨fw, List.mem_append_left _ hfw, hw, GENERATOR_PREFIX, j, Or.inl rfl, hp⟩
  | inr hm =>
    obtain ⟨fw, hfw, hw, j, hp⟩ :=
      individuals_loop_local_weights output_dir DISCRIMINATOR_PREFIX cell_number 0
        discriminators individual hm hloc
    exact ⟨fw, List.mem_append_right _ hfw, hw, DISCRIMINATOR_PREFIX, j, Or.inr rfl, hp⟩

/-- C2 amended, witness: the local individual indiv_loc in the generator
population of a concrete call gets a weight file. -/
theorem save_checkpoint_saves_local_weights_witness :
    indiv_loc.is_local = true
    ∧ (indiv_loc ∈ [indiv_loc] ∨ indiv_loc ∈ ([] : List Individual))
    ∧ ∃ fw ∈ (save_checkpoint "out" "t" [indiv_loc] [] 3 (0, 0) 1).1,
        fw.weights = indiv_loc.genome_weights
        ∧ ∃ pfx j, (pfx = GENERATOR_PREFIX ∨ pfx = DISCRIMINATOR_PREFIX)
            ∧ fw.path = pathJoin "out"
                (pfx ++ toString (3 : Int) ++ "-" ++ toString (j : Nat) ++ ".pkl") :=
  ⟨rfl, Or.inl (List.mem_singleton.mpr rfl),
   save_checkpoint_saves_local_weights "out" "t" [indiv_loc] [] 3 (0, 0) 1
     indiv_loc rfl (Or.inl (List.mem_singleton.mpr rfl))⟩

/-- C4 counterexample: with generators [indiv_a, indiv_b] whose learning
rates are 7 and 9, the per-individual entry of indiv_b has no
learning_rate key, and the full checkpoint value records only the
learning rate 7 of the first individual of each population: the learning
rate 9 of indiv_b appears nowhere. -/
theorem learning_rate_not_per_individual :
    (indiv_dict indiv_b).find "learning_rate" = none
    ∧ save_checkpoint "out" "t" [indiv_a, indiv_b] [indiv_a] 0 (0, 0) 1
      = ([], some (.dict [("time", .s "t"),
          ("generators", .dict [("learning_rate", .s "7"),
            ("individuals", .list
              [.dict [("id", .n 1), ("is_local", .b false),
                ("fitness", .n 5), ("source", .s "a:1")],
               .dict [("id", .n 2), ("is_local", .b false),
                ("fitness", .n 6), ("source", .s "a:2")]])]),
          ("discriminators", .dict [("learning_rate", .s "7"),
            ("individuals", .list [.dict [("id", .n 1), ("is_local", .b false),
              ("fitness", .n 5), ("source", .s "a:1")]])]),
          ("id", .n 0),
          ("iteration", .n 0),
          ("position", .dict [("x", .n 0), ("y", .n 0)]),
          ("grid_size", .n 1)], "out/checkpoint-0.yml")) :=
  ⟨rfl, rfl⟩

/-- C4 amended: every individual entry includes the fitness of that
individual; the learning rate is recorded once per population, as the
formatted learning rate of the FIRST individual, not per individual. -/
theorem population_fitness_and_learning_rate (output_dir pfx : String)
    (cell_number : Int) (i0 : Individual) (rest : List Individual) :
    (get_individuals_information output_dir pfx cell_number (i0 :: rest)).1
      = .dict [("learning_rate", .s (toString i0.learning_rate)),
               ("individuals", .list ((i0 :: rest).map indiv_dict))]
    ∧ ∀ individual : Individual,
        (indiv_dict individual).find "fitness" = some (.n individual.fitness)
        ∧ (indiv_dict individual).find "learning_rate" = none := by
  refine ⟨?_, fun individual => ⟨rfl, rfl⟩⟩
  simp [get_individuals_information, individuals_loop_fst]

/-- C10 counterexample: with an empty generators list but a local
discriminator, the call fails before the YAML write (second component
none), yet the output is NOT unchanged: the weight file of the local
discriminator has already been written. -/
theorem empty_generators_writes_discriminator_weights :
    (save_checkpoint "out" "t" [] [indiv_loc] 7 (0, 0) 1).2 = none
    ∧ (save_checkpoint "out" "t" [] [indiv_loc] 7 (0, 0) 1).1
        = [⟨"out/discriminator-7-0.pkl", [9, 9]⟩]
    ∧ ([⟨"out/discriminator-7-0.pkl", [9, 9]⟩] : List FileWrite) ≠ [] :=
  ⟨rfl, rfl, List.cons_ne_nil _ _⟩

/-- C10 amended: with an empty generators list, save_checkpoint fails at
generators[0].iteration, so no checkpoint YAML is written; the .pkl
weight files of the local discriminator individuals have however already
been written when the failure occurs, and get_individuals_information
itself tolerates an empty population, returning the empty dict and
writing nothing. -/
theorem save_checkpoint_empty_generators_behavior (output_dir now : String)
    (discriminators : List Individual)
    (cell_number : Int) (grid_position : Int × Int) (grid_size : Int) :
    (save_checkpoint output_dir now [] discriminators
        cell_number grid_position grid_size).2 = none
    ∧ (save_checkpoint output_dir now [] discriminators
        cell_number grid_position grid_size).1
      = (get_individuals_information output_dir DISCRIMINATOR_PREFIX
          cell_number discriminators).2
    ∧ ∀ pfx, get_individuals_information output_dir pfx cell_number []
        = (.dict [], []) :=
  ⟨rfl, rfl, fun _ => rfl⟩

/-! Helper lemmas about save_images and log_results. -/

/-- Setting one training flag leaves every flag either unchanged or
equal to the value written. -/
theorem getD_set_same (l : List Bool) (k : Nat) (a : Bool) (i : Nat) :
    (l.set k a).getD i false = l.getD i false ∨ (l.set k a).getD i false = a := by
  rcases eq_or_ne i k with rfl | h
  · rw [List.getD_eq_getElem?_getD, List.getElem?_set_self']
    cases hl : l[i]? with
    | none => left; rw [List.getD_eq_getElem?_getD, hl]; rfl
    | some b => right; rfl
  · left
    rw [List.getD_eq_getElem?_getD, List.getElem?_set_ne (Ne.symm h),
      ← List.getD_eq_getElem?_getD]

/-- After the multi-generator loop, every training flag is either its
initial value or true. -/
theorem run_generators_getD (flags : List Bool) (k : Nat) (i : Nat) :
    (run_generators flags k).getD i false = flags.getD i false
      ∨ (run_generators flags k).getD i false = true := by
  induction k with
  | zero => left; rfl
  | succ m ih =>
    have hs : run_generators flags (m + 1) = (run_generators flags m).set m true := by
      simp [run_generators, eval_then_train, List.set_set]
    rw [hs]
    rcases getD_set_same (run_generators flags m) m true i with h | h
    · rw [h]; exact ih
    · right; exact h

/-- The multi-generator loop does not change the number of networks. -/
theorem run_generators_length (flags : List Bool) (k : Nat) :
    (run_generators flags k).length = flags.length := by
  induction k with
  | zero => rfl
  | succ m ih => simp [run_generators, eval_then_train, List.length_set, ih]

/-- Characterization of a completed save_images call: real images are
saved exactly at iteration 0 (when path_real was passed), the fake
count is the batch size times min(n_gen, 5) in the multi-generator
configuration and the batch size otherwise, and the touched generators
end in training mode. -/
theorem save_images_some (s : Settings) (dataset_has_save : Bool) (n_gen : Nat)
    (flags : List Bool) (dis_nonempty : Bool) (batch_size iteration : Nat)
    (has_path_real : Bool) (e : SaveImagesEffect)
    (h : save_images s dataset_has_save n_gen flags dis_nonempty batch_size
          iteration has_path_real = some e) :
    e = ⟨iteration == 0 && has_path_real,
         if dataset_has_save && s.print_multiple_generators
           then min n_gen 5 * batch_size else batch_size,
         if dataset_has_save && s.print_multiple_generators
           then run_generators flags (min n_gen 5) else eval_then_train flags 0⟩ := by
  cases hd : dataset_has_save <;> cases hm : s.print_multiple_generators <;>
    cases hn : n_gen == 0 <;> cases hpd : s.print_discriminator <;>
      cases hdn : dis_nonempty <;> subst hd <;>
        simp_all [save_images]

/-- With a non-empty generator population and a non-empty discriminator
population, save_images completes. -/
theorem save_images_total (s : Settings) (dataset_has_save : Bool) (n_gen : Nat)
    (flags : List Bool) (batch_size iteration : Nat) (has_path_real : Bool)
    (hn : n_gen ≠ 0) :
    ∃ e, save_images s dataset_has_save n_gen flags true batch_size iteration
      has_path_real = some e := by
  cases n_gen with
  | zero => exact absurd rfl hn
  | succ m =>
    cases dataset_has_save <;> cases hp : s.print_multiple_generators <;>
      simp [save_images, hp]

/-- Explicit form of log_results on non-empty populations: the record
holds the 1-based iteration number and the first fitnesses, save_images
runs on the effective batch size, and the two image paths are
returned. -/
theorem log_results_cons (s : Settings) (dataset_has_save : Bool)
    (g0 d0 : Individual) (gt dt : List Individual) (flags : List Bool)
    (batch_size iteration : Nat) :
    ∃ e, log_results s dataset_has_save (g0 :: gt) (d0 :: dt) flags batch_size iteration
        = some ⟨⟨iteration + 1, g0.fitness, d0.fitness⟩, e,
            pathJoin s.output_dir ("real_images." ++ s.image_format),
            pathJoin s.output_dir
              ("fake_images-" ++ toString (iteration + 1) ++ "." ++ s.image_format)⟩
      ∧ save_images s dataset_has_save (g0 :: gt).length flags true
          (effective_batch_size s.sample_count batch_size) iteration true = some e := by
  obtain ⟨e, he⟩ := save_images_total s dataset_has_save (g0 :: gt).length flags
    (effective_batch_size s.sample_count batch_size) iteration true (by simp)
  have he' : save_images s dataset_has_save (gt.length + 1) flags true
      (effective_batch_size s.sample_count batch_size) iteration true = some e := he
  refine ⟨e, ?_, he⟩
  simp [log_results, List.isEmpty_cons, he']

/-! Claim theorems about log_results and save_images. -/

/-- C6: a call of log_results at iteration i logs the shown iteration
number i + 1 with the fitness of the first generator and of the first
discriminator, saves images through save_images, and returns the pair
(real_images.fmt, fake_images-(i+1).fmt) in the output directory. -/
theorem log_results_record_and_paths (s : Settings) (dataset_has_save : Bool)
    (g0 d0 : Individual) (gt dt : List Individual) (flags : List Bool)
    (batch_size iteration : Nat) :
    ∃ e, log_results s dataset_has_save (g0 :: gt) (d0 :: dt) flags batch_size iteration
        = some ⟨⟨iteration + 1, g0.fitness, d0.fitness⟩, e,
            pathJoin s.output_dir ("real_images." ++ s.image_format),
            pathJoin s.output_dir
              ("fake_images-" ++ toString (iteration + 1) ++ "." ++ s.image_format)⟩
      ∧ save_images s dataset_has_save (g0 :: gt).length flags true
          (effective_batch_size s.sample_count batch_size) iteration true = some e :=
  log_results_cons s dataset_has_save g0 d0 gt dt flags batch_size iteration

/-- C8 counterexample: with sample_count absent and batch_size 4, but
print_multiple_generators enabled on a population of two generators,
log_results generates and saves 8 images, not min(4, 128) = 4. -/
theorem more_images_with_multiple_generators :
    ((log_results cfgMulti true [indiv_a, indiv_b] [indiv_a] [true, true] 4 1).map
        fun r => r.effect.fake_count) = some 8
    ∧ min 4 128 = 4 ∧ (8 : Nat) ≠ 4 := ⟨rfl, rfl, by decide⟩

/-- C8 amended: the effective batch size is sample_count when present
and non-zero, else min(batch_size, 128); the number of images generated
and saved equals the effective batch size, except that with
print_multiple_generators enabled (and a dataset with its own
save_images), min(generator count, 5) generators each contribute one
effective batch. -/
theorem log_results_image_count (s : Settings) (dataset_has_save : Bool)
    (g0 d0 : Individual) (gt dt : List Individual) (flags : List Bool)
    (batch_size iteration : Nat) (r : LogResultsOut)
    (h : log_results s dataset_has_save (g0 :: gt) (d0 :: dt) flags batch_size iteration
          = some r) :
    r.effect.fake_count
      = (if dataset_has_save && s.print_multiple_generators
         then min (g0 :: gt).length 5 * effective_batch_size s.sample_count batch_size
         else effective_batch_size s.sample_count batch_size)
    ∧ (∀ n : Nat, effective_batch_size (some n) batch_size
        = if n ≠ 0 then n else min batch_size 128)
    ∧ effective_batch_size none batch_size = min batch_size 128 := by
  refine ⟨?_, ?_, rfl⟩
  · obtain ⟨e, he, hsi⟩ := log_results_cons s dataset_has_save g0 d0 gt dt flags
      batch_size iteration
    rw [he] at h
    have hr := Option.some.inj h
    have hc := save_images_some _ _ _ _ _ _ _ _ _ hsi
    rw [← hr, hc]
  · intro n
    by_cases hn : n = 0 <;> simp [effective_batch_size, hn]

/-- C8 amended, witness: a concrete call with one generator validates
the count formula (here 4 = min(4, 128) fake images). -/
theorem log_results_image_count_witness :
    log_results cfgMulti true [indiv_a] [indiv_a] [true] 4 1
      = some ⟨⟨2, 5, 5⟩, ⟨false, 4, [true]⟩, "out/real_images.png", "out/fake_images-2.png"⟩
    ∧ (⟨⟨2, 5, 5⟩, ⟨false, 4, [true]⟩, "out/real_images.png", "out/fake_images-2.png"⟩
        : LogResultsOut).effect.fake_count = 4 :=
  ⟨rfl, by exact (log_results_image_count cfgMulti true indiv_a indiv_a [] [] [true]
    4 1 _ rfl).1⟩

/-- C9 counterexample: a generator whose training flag is false before
save_images has its flag true after the completed call: gen.train() at
the end restores training mode, not the prior mode, so the flag of that
generator is changed by the call. -/
theorem generator_flag_changed_by_save_images :
    ((save_images cfgPlain false 1 [false] true 4 1 true).map
        fun e => e.flags_after) = some [true]
    ∧ ([true] : List Bool) ≠ [false] := ⟨rfl, by decide⟩

/-- C9 amended: every generator switched to evaluation mode by
save_images is set to training mode before the call returns, so after a
completed call each training flag is either unchanged or true; in
particular generators already in training mode are unchanged, but a
generator that started in evaluation mode ends changed, in training
mode. -/
theorem save_images_flags_final (s : Settings) (dataset_has_save : Bool)
    (n_gen : Nat) (flags : List Bool) (dis_nonempty : Bool)
    (batch_size iteration : Nat) (has_path_real : Bool) (e : SaveImagesEffect)
    (h : save_images s dataset_has_save n_gen flags dis_nonempty batch_size
          iteration has_path_real = some e) :
    e.flags_after.length = flags.length
    ∧ ∀ i, e.flags_after.getD i false = flags.getD i false
        ∨ e.flags_after.getD i false = true := by
  have hf : e.flags_after
      = if dataset_has_save && s.print_multiple_generators
          then run_generators flags (min n_gen 5) else eval_then_train flags 0 := by
    rw [save_images_some s dataset_has_save n_gen flags dis_nonempty batch_size
      iteration has_path_real e h]
  have hset : eval_then_train flags 0 = flags.set 0 true := by
    simp [eval_then_train, List.set_set]
  by_cases hb : (dataset_has_save && s.print_multiple_generators) = true
  · rw [hf, if_pos hb]
    exact ⟨run_generators_length flags (min n_gen 5),
      fun i => run_generators_getD flags (min n_gen 5) i⟩
  · rw [hf, if_neg hb, hset]
    exact ⟨by simp, fun i => getD_set_same flags 0 true i⟩

/-- C9 amended, witness: a completed concrete save_images call keeps the
number of generator flags. -/
theorem save_images_flags_final_witness :
    save_images cfgPlain false 2 [true, false] true 3 1 true
      = some ⟨false, 3, [true, false]⟩
    ∧ (⟨false, 3, [true, false]⟩ : SaveImagesEffect).flags_after.length
        = ([true, false] : List Bool).length :=
  ⟨rfl, (save_images_flags_final cfgPlain false 2 [true, false] true 3 1 true _ rfl).1⟩

end NNTrainer
